import Mathlib

/-!
# Verification of `sdre-rust-logging` (src/lib.rs)

A shallow embedding of the `sdre-rust-logging` crate: the `SetupLogging`
trait implementations for `&str`, `String`, `usize` and `u8`
(`set_logging_level`, `enable_logging`) and the `set_builder` function that
installs the global `env_logger` formatter and minimum-severity filter.

Machine integers are embedded as `Nat` (`usize`) and `Fin 256` (`u8`);
the `log` crate's `Level` and `LevelFilter` enumerations are embedded as
inductive types carrying the crate's numeric discriminants; the
side-effecting `env_logger::Builder::init` is embedded as returning the
`LoggerConfig` value it installs (the filter and the line formatter).
-/

namespace SdreRustLogging

/-- The `log` crate's `Level` enumeration: the severity of an emitted
record. Discriminants (most to least severe): Error = 1, Warn = 2,
Info = 3, Debug = 4, Trace = 5. -/
inductive Level where
  | Error
  | Warn
  | Info
  | Debug
  | Trace
deriving DecidableEq, Repr

/-- The `log` crate's `LevelFilter` enumeration: a maximum-verbosity
filter. Discriminants: Off = 0, Error = 1, Warn = 2, Info = 3,
Debug = 4, Trace = 5. -/
inductive LevelFilter where
  | Off
  | Error
  | Warn
  | Info
  | Debug
  | Trace
deriving DecidableEq, Repr

/-- Numeric discriminant of a `log::Level` (`Error = 1` … `Trace = 5`). -/
def Level.toNum : Level → Nat
  | .Error => 1
  | .Warn => 2
  | .Info => 3
  | .Debug => 4
  | .Trace => 5

/-- Numeric discriminant of a `log::LevelFilter` (`Off = 0` … `Trace = 5`). -/
def LevelFilter.toNum : LevelFilter → Nat
  | .Off => 0
  | .Error => 1
  | .Warn => 2
  | .Info => 3
  | .Debug => 4
  | .Trace => 5

/-- `log::Level::to_level_filter`: the filter admitting exactly this level
and the more severe ones. -/
def Level.toLevelFilter : Level → LevelFilter
  | .Error => .Error
  | .Warn => .Warn
  | .Info => .Info
  | .Debug => .Debug
  | .Trace => .Trace

/-- `Display` of a `log::Level`: the all-caps level name
(`LOG_LEVEL_NAMES` in the `log` crate). -/
def Level.display : Level → String
  | .Error => "ERROR"
  | .Warn => "WARN"
  | .Info => "INFO"
  | .Debug => "DEBUG"
  | .Trace => "TRACE"

/-- The ASCII fragment of Rust's `char`-wise lowercase mapping, which is
what `str::to_lowercase` applies to each character. `set_logging_level`
only compares the result against the five ASCII level names, on which the
ASCII fragment coincides with the full Unicode mapping. -/
def rustCharToLower (c : Char) : Char :=
  match c with
  | 'A' => 'a'
  | 'B' => 'b'
  | 'C' => 'c'
  | 'D' => 'd'
  | 'E' => 'e'
  | 'F' => 'f'
  | 'G' => 'g'
  | 'H' => 'h'
  | 'I' => 'i'
  | 'J' => 'j'
  | 'K' => 'k'
  | 'L' => 'l'
  | 'M' => 'm'
  | 'N' => 'n'
  | 'O' => 'o'
  | 'P' => 'p'
  | 'Q' => 'q'
  | 'R' => 'r'
  | 'S' => 's'
  | 'T' => 't'
  | 'U' => 'u'
  | 'V' => 'v'
  | 'W' => 'w'
  | 'X' => 'x'
  | 'Y' => 'y'
  | 'Z' => 'z'
  | c => c

/-- Rust's `str::to_lowercase`: lowercase every character. -/
def rustToLowercase (s : String) : String :=
  ⟨s.data.map rustCharToLower⟩

/-- `<&str as SetupLogging>::set_logging_level` (src/lib.rs:88-97). -/
def StrImpl.set_logging_level (s : String) : LevelFilter :=
  match rustToLowercase s with
  | "error" => LevelFilter.Error
  | "warn" => LevelFilter.Warn
  | "info" => LevelFilter.Info
  | "debug" => LevelFilter.Debug
  | "trace" => LevelFilter.Trace
  | _ => LevelFilter.Info

/-- `<String as SetupLogging>::set_logging_level` (src/lib.rs:106-115). -/
def StringImpl.set_logging_level (s : String) : LevelFilter :=
  match rustToLowercase s with
  | "error" => LevelFilter.Error
  | "warn" => LevelFilter.Warn
  | "info" => LevelFilter.Info
  | "debug" => LevelFilter.Debug
  | "trace" => LevelFilter.Trace
  | _ => LevelFilter.Info

/-- `<usize as SetupLogging>::set_logging_level` (src/lib.rs:125-134). -/
def UsizeImpl.set_logging_level (n : Nat) : LevelFilter :=
  match n with
  | 1 => LevelFilter.Error
  | 2 => LevelFilter.Warn
  | 3 => LevelFilter.Info
  | 4 => LevelFilter.Debug
  | 5 => LevelFilter.Trace
  | _ => LevelFilter.Info

/-- `<u8 as SetupLogging>::set_logging_level` (src/lib.rs:143-152). -/
def U8Impl.set_logging_level (n : Fin 256) : LevelFilter :=
  match n.val with
  | 1 => LevelFilter.Error
  | 2 => LevelFilter.Warn
  | 3 => LevelFilter.Info
  | 4 => LevelFilter.Debug
  | 5 => LevelFilter.Trace
  | _ => LevelFilter.Info

/-- `env_logger::fmt::Color`: the terminal colors used by `set_builder`. -/
inductive Color where
  | Black
  | Red
  | Green
  | Yellow
  | Blue
  | Magenta
  | Cyan
  | White
  | Rgb (r g b : Nat)
deriving DecidableEq, Repr

/-- `env_logger::fmt::Style`: the styling configured on a `buf.style()`
handle. A fresh handle (`buf.style()`) has no color and no bold. -/
structure Style where
  color : Option Color := none
  bold : Bool := false
deriving DecidableEq, Repr

/-- `Style::set_color`. -/
def Style.set_color (st : Style) (c : Color) : Style :=
  { st with color := some c }

/-- `Style::set_bold`. -/
def Style.set_bold (st : Style) (b : Bool) : Style :=
  { st with bold := b }

/-- One value interpolated into the output line: the text together with the
`Style` it was wrapped in by `Style::value` (plain text carries the default
unstyled `Style`, under which `env_logger` emits no escape codes). -/
structure StyledSegment where
  style : Style
  text : String
deriving DecidableEq, Repr

/-- The characters actually printed once ANSI styling is stripped (what a
destination without styling support receives, since `env_logger` styling
degrades to a no-op there). -/
def plainText (segs : List StyledSegment) : String :=
  segs.foldr (fun seg acc => seg.text ++ acc) ""

/-- Rust's `format!` padding spec `{: <5}`: left-justify and pad with
spaces to a minimum width of 5 characters. -/
def padLeft5 (s : String) : String :=
  s ++ ⟨List.replicate (5 - s.length) ' '⟩

/-- A local wall-clock instant as chrono's `Local::now()` provides it,
broken into calendar/clock fields. -/
structure DateTimeLocal where
  year : Nat
  month : Nat
  day : Nat
  hour : Nat
  minute : Nat
  second : Nat
deriving DecidableEq, Repr

/-- Zero-pad a numeral to at least two digits (chrono's `%m`, `%d`, `%H`,
`%M`, `%S`). -/
def pad2 (n : Nat) : String :=
  if n < 10 then "0" ++ toString n else toString n

/-- Zero-pad a numeral to at least four digits (chrono's `%Y` for the
common-era years this formatter meets). -/
def pad4 (n : Nat) : String :=
  if n < 10 then "000" ++ toString n
  else if n < 100 then "00" ++ toString n
  else if n < 1000 then "0" ++ toString n
  else toString n

/-- chrono's `format("%Y-%m-%dT%H:%M:%S")` on a local instant: calendar
date and clock time, no sub-second part, no timezone offset. -/
def chronoFormatYmdHms (dt : DateTimeLocal) : String :=
  pad4 dt.year ++ "-" ++ pad2 dt.month ++ "-" ++ pad2 dt.day ++ "T" ++
    pad2 dt.hour ++ ":" ++ pad2 dt.minute ++ ":" ++ pad2 dt.second

/-- The `match record.level()` block inside `set_builder`'s format closure
(src/lib.rs:57-73): starting from the fresh `buf.style()`, set the
level-specific color and bold. -/
def levelStyleFor (l : Level) : Style :=
  match l with
  | .Info => Style.set_bold (Style.set_color {} Color.Green) true
  | .Debug => Style.set_bold (Style.set_color {} Color.Cyan) true
  | .Trace => Style.set_bold (Style.set_color {} Color.Magenta) true
  | .Error => Style.set_bold (Style.set_color {} Color.Red) true
  | .Warn => Style.set_bold (Style.set_color {} Color.Yellow) true

/-- The `time_style` configured in `set_builder` (src/lib.rs:54-55):
`Rgb(159, 80, 1)`, bold. -/
def timeStyle : Style :=
  Style.set_bold (Style.set_color {} (Color.Rgb 159 80 1)) true

/-- The format closure passed to `Builder::format` (src/lib.rs:52-82):
the `writeln!` call interpolates `level_style.value` of the padded level
name and `time_style.value` of the formatted time between literal
brackets, then the record's message and a newline; rendered here as the
sequence of styled segments, with `Local::now()` passed in as `now`. -/
def formatRecord (now : DateTimeLocal) (l : Level) (msg : String) :
    List StyledSegment :=
  [⟨{}, "["⟩,
   ⟨levelStyleFor l, padLeft5 l.display⟩,
   ⟨{}, "]["⟩,
   ⟨timeStyle, chronoFormatYmdHms now⟩,
   ⟨{}, "]"⟩,
   ⟨{}, msg⟩,
   ⟨{}, "\n"⟩]

/-- The process-wide logging configuration that `Builder::init` installs:
the minimum-severity filter and the line formatter. -/
structure LoggerConfig where
  filter : LevelFilter
  format : DateTimeLocal → Level → String → List StyledSegment

/-- `set_builder` (src/lib.rs:50-85): build an `env_logger::Builder` with
the format closure and `.filter(None, loglevel)`, and install it. -/
def set_builder (loglevel : LevelFilter) : LoggerConfig :=
  { filter := loglevel, format := formatRecord }

/-- `<&str as SetupLogging>::enable_logging` (src/lib.rs:99-102). -/
def StrImpl.enable_logging (s : String) : LoggerConfig :=
  set_builder (StrImpl.set_logging_level s)

/-- `<String as SetupLogging>::enable_logging` (src/lib.rs:117-121); the
`self.clone()` is the identity on the embedded string value. -/
def StringImpl.enable_logging (s : String) : LoggerConfig :=
  set_builder (StringImpl.set_logging_level s)

/-- `<usize as SetupLogging>::enable_logging` (src/lib.rs:136-139). -/
def UsizeImpl.enable_logging (n : Nat) : LoggerConfig :=
  set_builder (UsizeImpl.set_logging_level n)

/-- `<u8 as SetupLogging>::enable_logging` (src/lib.rs:154-157). -/
def U8Impl.enable_logging (n : Fin 256) : LoggerConfig :=
  set_builder (U8Impl.set_logging_level n)

/-- Modelled from the spec: the global-sink filtering step lives in the
`log`/`env_logger` crates, not in this repository. Per the spec's
invariant, the installed sink emits a record exactly when its severity is
at or above the configured minimum; in the `log` crate's discriminant
encoding a record of level `l` passes a filter `f` when
`l.toNum ≤ f.toNum`. -/
def record_emitted (f : LevelFilter) (l : Level) : Bool :=
  l.toNum ≤ f.toNum

/-- Modelled from the spec: number of formatted output lines one logging
call at level `l` produces under the installed filter `f` — one when the
record passes the filter, none when it does not. -/
def output_lines (f : LevelFilter) (l : Level) : Nat :=
  if record_emitted f l then 1 else 0

/-- Severity comparison on records and filters, as the spec words it:
level `l` is "at or above" (at least as severe as) the minimum severity
named by filter `f`. `Error` is most severe, so smaller discriminants are
more severe. -/
def atOrAboveSeverity (l : Level) (f : LevelFilter) : Prop :=
  l.toNum ≤ f.toNum

instance (l : Level) (f : LevelFilter) : Decidable (atOrAboveSeverity l f) := by
  unfold atOrAboveSeverity
  infer_instance

/-! ## Helper lemmas -/

/-- Lowercasing a character either fixes it or yields an ASCII lowercase
letter. -/
lemma rustCharToLower_fixed_or_lower (c : Char) :
    rustCharToLower c = c ∨
      rustCharToLower c ∈
        ['a', 'b', 'c', 'd', 'e', 'f', 'g', 'h', 'i', 'j', 'k', 'l', 'm',
         'n', 'o', 'p', 'q', 'r', 's', 't', 'u', 'v', 'w', 'x', 'y', 'z'] := by
  unfold rustCharToLower
  split <;> first | (right; decide) | (left; rfl)

/-- ASCII lowercase letters are fixed points of `rustCharToLower`. -/
lemma rustCharToLower_of_lower :
    ∀ c ∈ ['a', 'b', 'c', 'd', 'e', 'f', 'g', 'h', 'i', 'j', 'k', 'l', 'm',
           'n', 'o', 'p', 'q', 'r', 's', 't', 'u', 'v', 'w', 'x', 'y', 'z'],
      rustCharToLower c = c := by decide

/-- `rustCharToLower` is idempotent. -/
lemma rustCharToLower_idem (c : Char) :
    rustCharToLower (rustCharToLower c) = rustCharToLower c := by
  rcases rustCharToLower_fixed_or_lower c with h | h
  · rw [h]
    exact h
  · exact rustCharToLower_of_lower _ h

/-- `rustToLowercase` is idempotent. -/
lemma rustToLowercase_idem (s : String) :
    rustToLowercase (rustToLowercase s) = rustToLowercase s := by
  unfold rustToLowercase
  congr 1
  show (s.data.map rustCharToLower).map rustCharToLower = _
  induction s.data with
  | nil => rfl
  | cons c cs ih => simp only [List.map_cons, rustCharToLower_idem, ih]

/-- The string resolver never yields `Off`. -/
lemma str_resolve_ne_off (s : String) :
    StrImpl.set_logging_level s ≠ LevelFilter.Off := by
  unfold StrImpl.set_logging_level
  split <;> decide

/-- The `String` resolver never yields `Off`. -/
lemma string_resolve_ne_off (s : String) :
    StringImpl.set_logging_level s ≠ LevelFilter.Off := by
  unfold StringImpl.set_logging_level
  split <;> decide

/-- The `usize` resolver never yields `Off`. -/
lemma usize_resolve_ne_off (n : Nat) :
    UsizeImpl.set_logging_level n ≠ LevelFilter.Off := by
  unfold UsizeImpl.set_logging_level
  split <;> decide

/-- The `u8` resolver never yields `Off`. -/
lemma u8_resolve_ne_off (b : Fin 256) :
    U8Impl.set_logging_level b ≠ LevelFilter.Off := by
  unfold U8Impl.set_logging_level
  split <;> decide

/-- Every filter other than `Off` is the filter of one of the five levels. -/
lemma exists_level_of_ne_off (lf : LevelFilter) (h : lf ≠ LevelFilter.Off) :
    ∃ l : Level, lf = l.toLevelFilter := by
  cases lf with
  | Off => exact absurd rfl h
  | Error => exact ⟨Level.Error, rfl⟩
  | Warn => exact ⟨Level.Warn, rfl⟩
  | Info => exact ⟨Level.Info, rfl⟩
  | Debug => exact ⟨Level.Debug, rfl⟩
  | Trace => exact ⟨Level.Trace, rfl⟩

/-! ## Claim theorems -/

/-- C1: for both the `u8` and the `usize` receiver, `set_logging_level`
maps 1 to `Error`, 2 to `Warn`, 3 to `Info`, 4 to `Debug`, 5 to `Trace`,
and every other value (0 or any value ≥ 6, e.g. 255) to `Info`. -/
theorem int_set_logging_level_mapping :
    (∀ n : Nat, n = 0 ∨ 6 ≤ n →
      UsizeImpl.set_logging_level n = LevelFilter.Info) ∧
    (∀ b : Fin 256, b.val = 0 ∨ 6 ≤ b.val →
      U8Impl.set_logging_level b = LevelFilter.Info) ∧
    UsizeImpl.set_logging_level 1 = LevelFilter.Error ∧
    UsizeImpl.set_logging_level 2 = LevelFilter.Warn ∧
    UsizeImpl.set_logging_level 3 = LevelFilter.Info ∧
    UsizeImpl.set_logging_level 4 = LevelFilter.Debug ∧
    UsizeImpl.set_logging_level 5 = LevelFilter.Trace ∧
    U8Impl.set_logging_level 1 = LevelFilter.Error ∧
    U8Impl.set_logging_level 2 = LevelFilter.Warn ∧
    U8Impl.set_logging_level 3 = LevelFilter.Info ∧
    U8Impl.set_logging_level 4 = LevelFilter.Debug ∧
    U8Impl.set_logging_level 5 = LevelFilter.Trace := by
  refine ⟨?_, ?_, by decide, by decide, by decide, by decide, by decide,
    by decide, by decide, by decide, by decide, by decide⟩
  · intro n h
    unfold UsizeImpl.set_logging_level
    split <;> first | rfl | omega
  · intro b h
    unfold U8Impl.set_logging_level
    split <;> first | rfl | omega

/-- C1 witness: the default branch at the concrete inputs 0, 255 (both
receivers) and 6. -/
theorem int_set_logging_level_mapping_witness :
    UsizeImpl.set_logging_level 0 = LevelFilter.Info ∧
    UsizeImpl.set_logging_level 255 = LevelFilter.Info ∧
    UsizeImpl.set_logging_level 6 = LevelFilter.Info ∧
    U8Impl.set_logging_level 0 = LevelFilter.Info ∧
    U8Impl.set_logging_level 255 = LevelFilter.Info :=
  ⟨int_set_logging_level_mapping.1 0 (Or.inl rfl),
   int_set_logging_level_mapping.1 255 (Or.inr (by decide)),
   int_set_logging_level_mapping.1 6 (Or.inr (by decide)),
   int_set_logging_level_mapping.2.1 0 (Or.inl rfl),
   int_set_logging_level_mapping.2.1 255 (Or.inr (by decide))⟩

/-- C2: the string receiver's `set_logging_level` maps any case variant of
the five level names to the corresponding level (formally: any string
whose lowercasing is the level name), maps every other string to `Info`,
and resolution of a string equals resolution of its lowercased form. -/
theorem str_set_logging_level_case_insensitive :
    (∀ s : String, rustToLowercase s = "error" →
      StrImpl.set_logging_level s = LevelFilter.Error) ∧
    (∀ s : String, rustToLowercase s = "warn" →
      StrImpl.set_logging_level s = LevelFilter.Warn) ∧
    (∀ s : String, rustToLowercase s = "info" →
      StrImpl.set_logging_level s = LevelFilter.Info) ∧
    (∀ s : String, rustToLowercase s = "debug" →
      StrImpl.set_logging_level s = LevelFilter.Debug) ∧
    (∀ s : String, rustToLowercase s = "trace" →
      StrImpl.set_logging_level s = LevelFilter.Trace) ∧
    (∀ s : String,
      rustToLowercase s ∉ (["error", "warn", "info", "debug", "trace"] : List String) →
      StrImpl.set_logging_level s = LevelFilter.Info) ∧
    (∀ s : String,
      StrImpl.set_logging_level s = StrImpl.set_logging_level (rustToLowercase s)) := by
  refine ⟨?_, ?_, ?_, ?_, ?_, ?_, ?_⟩
  · intro s h
    unfold StrImpl.set_logging_level
    rw [h]
    decide
  · intro s h
    unfold StrImpl.set_logging_level
    rw [h]
    decide
  · intro s h
    unfold StrImpl.set_logging_level
    rw [h]
    decide
  · intro s h
    unfold StrImpl.set_logging_level
    rw [h]
    decide
  · intro s h
    unfold StrImpl.set_logging_level
    rw [h]
    decide
  · intro s h
    unfold StrImpl.set_logging_level
    split <;> simp_all
  · intro s
    unfold StrImpl.set_logging_level
    rw [rustToLowercase_idem]

/-- C2 witness: concrete case variants and an unrecognized string. -/
theorem str_set_logging_level_case_insensitive_witness :
    StrImpl.set_logging_level "ERROR" = LevelFilter.Error ∧
    StrImpl.set_logging_level "Warn" = LevelFilter.Warn ∧
    StrImpl.set_logging_level "DeBuG" = LevelFilter.Debug ∧
    StrImpl.set_logging_level "bogus" = LevelFilter.Info :=
  ⟨str_set_logging_level_case_insensitive.1 "ERROR" (by decide),
   str_set_logging_level_case_insensitive.2.1 "Warn" (by decide),
   str_set_logging_level_case_insensitive.2.2.2.1 "DeBuG" (by decide),
   str_set_logging_level_case_insensitive.2.2.2.2.2.1 "bogus" (by decide)⟩

/-- C7: the resolvers are total (every input yields the filter of one of
the five severity levels) and deterministic (equal inputs yield equal
outputs); in this embedding they are pure functions, so they have no side
effects. -/
theorem set_logging_level_total_pure :
    (∀ s : String, ∃ l : Level,
      StrImpl.set_logging_level s = l.toLevelFilter) ∧
    (∀ n : Nat, ∃ l : Level,
      UsizeImpl.set_logging_level n = l.toLevelFilter) ∧
    (∀ s₁ s₂ : String, s₁ = s₂ →
      StrImpl.set_logging_level s₁ = StrImpl.set_logging_level s₂) ∧
    (∀ n₁ n₂ : Nat, n₁ = n₂ →
      UsizeImpl.set_logging_level n₁ = UsizeImpl.set_logging_level n₂) := by
  refine ⟨?_, ?_, ?_, ?_⟩
  · intro s
    exact exists_level_of_ne_off _ (str_resolve_ne_off s)
  · intro n
    exact exists_level_of_ne_off _ (usize_resolve_ne_off n)
  · intro s₁ s₂ h
    rw [h]
  · intro n₁ n₂ h
    rw [h]

/-- C7 witness: determinism discharged at the concrete inputs `"info"`
and `4`. -/
theorem set_logging_level_total_pure_witness :
    StrImpl.set_logging_level "info" = StrImpl.set_logging_level "info" ∧
    UsizeImpl.set_logging_level 4 = UsizeImpl.set_logging_level 4 :=
  ⟨set_logging_level_total_pure.2.2.1 "info" "info" rfl,
   set_logging_level_total_pure.2.2.2 4 4 rfl⟩

/-- C8: the `&str` and `String` implementations of `set_logging_level`
agree on every string. -/
theorem str_string_set_logging_level_agree (s : String) :
    StrImpl.set_logging_level s = StringImpl.set_logging_level s := rfl

/-- C9: the `u8` and `usize` implementations of `set_logging_level` agree
on every numeric value in 0..=255. -/
theorem u8_usize_set_logging_level_agree (b : Fin 256) :
    U8Impl.set_logging_level b = UsizeImpl.set_logging_level b.val := by
  unfold U8Impl.set_logging_level UsizeImpl.set_logging_level
  rfl

/-- C10: no resolver of any supported receiver type ever yields
`LevelFilter.Off`; every result is the filter of one of the five levels,
so resolution never disables logging entirely. -/
theorem set_logging_level_never_off :
    (∀ s : String, StrImpl.set_logging_level s ≠ LevelFilter.Off ∧
      ∃ l : Level, StrImpl.set_logging_level s = l.toLevelFilter) ∧
    (∀ s : String, StringImpl.set_logging_level s ≠ LevelFilter.Off ∧
      ∃ l : Level, StringImpl.set_logging_level s = l.toLevelFilter) ∧
    (∀ n : Nat, UsizeImpl.set_logging_level n ≠ LevelFilter.Off ∧
      ∃ l : Level, UsizeImpl.set_logging_level n = l.toLevelFilter) ∧
    (∀ b : Fin 256, U8Impl.set_logging_level b ≠ LevelFilter.Off ∧
      ∃ l : Level, U8Impl.set_logging_level b = l.toLevelFilter) := by
  refine ⟨fun s => ⟨str_resolve_ne_off s, ?_⟩,
    fun s => ⟨string_resolve_ne_off s, ?_⟩,
    fun n => ⟨usize_resolve_ne_off n, ?_⟩,
    fun b => ⟨u8_resolve_ne_off b, ?_⟩⟩
  · exact exists_level_of_ne_off _ (str_resolve_ne_off s)
  · exact exists_level_of_ne_off _ (string_resolve_ne_off s)
  · exact exists_level_of_ne_off _ (usize_resolve_ne_off n)
  · exact exists_level_of_ne_off _ (u8_resolve_ne_off b)

/-- C10 witness: the resolvers at `"off"`, `0` and `0 : u8` still yield a
real level (namely `Info`), not `Off`. -/
theorem set_logging_level_never_off_witness :
    StrImpl.set_logging_level "off" ≠ LevelFilter.Off ∧
    UsizeImpl.set_logging_level 0 ≠ LevelFilter.Off ∧
    U8Impl.set_logging_level 0 ≠ LevelFilter.Off :=
  ⟨(set_logging_level_never_off.1 "off").1,
   (set_logging_level_never_off.2.2.1 0).1,
   (set_logging_level_never_off.2.2.2 0).1⟩

/-- C4: for every indicator and every receiver type, `enable_logging`
registers the global filter with exactly the level that
`set_logging_level` resolves from that indicator. -/
theorem enable_logging_installs_resolved_level :
    (∀ s : String,
      (StrImpl.enable_logging s).filter = StrImpl.set_logging_level s) ∧
    (∀ s : String,
      (StringImpl.enable_logging s).filter = StringImpl.set_logging_level s) ∧
    (∀ n : Nat,
      (UsizeImpl.enable_logging n).filter = UsizeImpl.set_logging_level n) ∧
    (∀ b : Fin 256,
      (U8Impl.enable_logging b).filter = U8Impl.set_logging_level b) :=
  ⟨fun _ => rfl, fun _ => rfl, fun _ => rfl, fun _ => rfl⟩

/-- C5: plain-text content of every formatted record: an opening bracket,
the severity name left-justified and padded to 5 characters, a closing
bracket, an opening bracket, the wall-clock time as `YYYY-MM-DDTHH:MM:SS`,
a closing bracket, the unmodified message, and a newline. -/
theorem format_record_line_shape (f : LevelFilter) (now : DateTimeLocal)
    (l : Level) (msg : String) :
    plainText ((set_builder f).format now l msg) =
      "[" ++ padLeft5 l.display ++ "][" ++ chronoFormatYmdHms now ++ "]" ++
        msg ++ "\n" := by
  show plainText (formatRecord now l msg) = _
  unfold plainText formatRecord
  simp only [List.foldr_cons, List.foldr_nil]
  simp [String.append_assoc]

/-- C6: the severity tag's style is bold with the level-specific color —
green for `Info`, cyan for `Debug`, magenta for `Trace`, red for `Error`,
yellow for `Warn` — and every `log::Level` is one of these five, so no
level outside them (which the spec would render white) exists. -/
theorem level_style_colors :
    (∀ l : Level, (levelStyleFor l).bold = true) ∧
    levelStyleFor Level.Info = { color := some Color.Green, bold := true } ∧
    levelStyleFor Level.Debug = { color := some Color.Cyan, bold := true } ∧
    levelStyleFor Level.Trace = { color := some Color.Magenta, bold := true } ∧
    levelStyleFor Level.Error = { color := some Color.Red, bold := true } ∧
    levelStyleFor Level.Warn = { color := some Color.Yellow, bold := true } ∧
    (∀ l : Level, l = Level.Error ∨ l = Level.Warn ∨ l = Level.Info ∨
      l = Level.Debug ∨ l = Level.Trace) := by
  refine ⟨fun l => ?_, rfl, rfl, rfl, rfl, rfl, fun l => ?_⟩
  · cases l <;> rfl
  · cases l <;> simp

/-- C3: under the installed configuration, a record at or above the
configured minimum severity produces exactly one output line and a record
below it produces none; concretely, after installing with indicator 5 a
`Trace` record produces one line, and after installing with indicator 1 an
`Info` record produces none. -/
theorem installed_filter_emission :
    (∀ (ind : Nat) (l : Level),
      (atOrAboveSeverity l (UsizeImpl.enable_logging ind).filter →
        output_lines (UsizeImpl.enable_logging ind).filter l = 1) ∧
      (¬ atOrAboveSeverity l (UsizeImpl.enable_logging ind).filter →
        output_lines (UsizeImpl.enable_logging ind).filter l = 0)) ∧
    output_lines (UsizeImpl.enable_logging 5).filter Level.Trace = 1 ∧
    output_lines (UsizeImpl.enable_logging 1).filter Level.Info = 0 := by
  refine ⟨fun ind l => ⟨fun h => ?_, fun h => ?_⟩, by decide, by decide⟩
  · unfold output_lines record_emitted
    unfold atOrAboveSeverity at h
    simp [h]
  · unfold output_lines record_emitted
    unfold atOrAboveSeverity at h
    simp [h]

/-- C3 witness: the general emission dichotomy discharged at indicator 3
(`Info` filter) for an `Error` record (emitted) and a `Debug` record
(suppressed). -/
theorem installed_filter_emission_witness :
    output_lines (UsizeImpl.enable_logging 3).filter Level.Error = 1 ∧
    output_lines (UsizeImpl.enable_logging 3).filter Level.Debug = 0 :=
  ⟨(installed_filter_emission.1 3 Level.Error).1 (by decide),
   (installed_filter_emission.1 3 Level.Debug).2 (by decide)⟩

end SdreRustLogging
